import Mathlib

/-!
Shallow embedding of the two demo programs of the repository:
`src/ex0/stream_processor.py` (processor hierarchy) and
`src/ex1/data_stream.py` (stream hierarchy), together with proofs of the
behavioural properties stated about them.

Python values that appear in the programs (batch elements and scalar
inputs) are modelled by `PyVal`: integers, floats (modelled exactly as
rationals) and strings.  A top-level input to an ex0 processor may also be
a list, hence `PyData`.  Fallible Python operations are modelled in the
`Except PyExc` monad; an uncaught exception of the source corresponds to
an `Except.error` result.  `print` output is modelled by returning the
list of printed lines.  Numeric rendering in result strings is modelled
by explicit total rendering functions (`ratStr`, `fmt2`); the spec states
the literal output format is not a contract, and no property below
depends on the rendering of a non-trivial numeral.
-/

/-- A Python scalar value as used by the programs: int, float or str.
Floats are modelled exactly as rationals. -/
inductive PyVal : Type
  | int (n : Int)
  | float (q : Rat)
  | str (s : String)
deriving DecidableEq

/-- Python exceptions that the modelled code can raise. -/
inductive PyExc : Type
  | typeError
  | zeroDivisionError
  | attributeError
deriving DecidableEq

/-- Whether a value is numeric (int or float); numeric values are exactly
the ones carrying the Python attribute `is_integer` (Python >= 3.12). -/
def PyVal.isNum : PyVal → Bool
  | .int _ => true
  | .float _ => true
  | .str _ => false

/-- Whether a value is a string. -/
def PyVal.isStr : PyVal → Bool
  | .str _ => true
  | _ => false

/-- The rational magnitude of a numeric value (0 for strings, unused there). -/
def PyVal.toRat : PyVal → Rat
  | .int n => (n : Rat)
  | .float q => q
  | .str _ => 0

/-- List-of-chars version of string startswith. -/
def startsWithL : List Char → List Char → Bool
  | [], _ => true
  | _ :: _, [] => false
  | a :: as, b :: bs => a == b && startsWithL as bs

/-- List-of-chars substring containment. -/
def containsL (needle : List Char) : List Char → Bool
  | [] => startsWithL needle []
  | c :: t => startsWithL needle (c :: t) || containsL needle t

/-- Python `needle in hay` on strings: substring containment. -/
def strContains (needle hay : String) : Bool :=
  containsL needle.data hay.data

/-- Python `sum` over a batch, left fold from accumulator `acc`; adding a
string to the numeric accumulator raises TypeError
(`src/ex1/data_stream.py` line 38, line 72). -/
def pySumAux (acc : Rat) : List PyVal → Except PyExc Rat
  | [] => .ok acc
  | .int n :: t => pySumAux (acc + (n : Rat)) t
  | .float q :: t => pySumAux (acc + q) t
  | .str _ :: _ => .error .typeError

/-- Python `sum(batch)` with its default start value 0. -/
def pySum (l : List PyVal) : Except PyExc Rat :=
  pySumAux 0 l

/-- Python `v > q` against a numeric literal; TypeError on a string
operand (`src/ex1/data_stream.py` line 58). -/
def pyGt (v : PyVal) (q : Rat) : Except PyExc Bool :=
  match v with
  | .int n => .ok (decide (q < (n : Rat)))
  | .float x => .ok (decide (q < x))
  | .str _ => .error .typeError

/-- Python `v <= q` against a numeric literal; TypeError on a string. -/
def pyLe (v : PyVal) (q : Rat) : Except PyExc Bool :=
  match v with
  | .int n => .ok (decide ((n : Rat) ≤ q))
  | .float x => .ok (decide (x ≤ q))
  | .str _ => .error .typeError

/-- Python `v >= q` against a numeric literal; TypeError on a string. -/
def pyGe (v : PyVal) (q : Rat) : Except PyExc Bool :=
  match v with
  | .int n => .ok (decide (q ≤ (n : Rat)))
  | .float x => .ok (decide (q ≤ x))
  | .str _ => .error .typeError

/-- Python `v < q` against a numeric literal; TypeError on a string. -/
def pyLt (v : PyVal) (q : Rat) : Except PyExc Bool :=
  match v with
  | .int n => .ok (decide ((n : Rat) < q))
  | .float x => .ok (decide (x < q))
  | .str _ => .error .typeError

/-- Python `"error" in v` inside a filter comprehension: substring test on
a string element, TypeError on a non-string element
(`src/ex1/data_stream.py` line 130). -/
def pyInError (v : PyVal) : Except PyExc Bool :=
  match v with
  | .str s => .ok (strContains "error" s)
  | _ => .error .typeError

/-- A Python list comprehension `[x for x in l if p x]` whose predicate
may raise: elements are tested left to right and the first exception
propagates. -/
def exFilter (p : PyVal → Except PyExc Bool) : List PyVal → Except PyExc (List PyVal)
  | [] => .ok []
  | a :: t =>
    match p a with
    | .error e => .error e
    | .ok b =>
      match exFilter p t with
      | .error e => .error e
      | .ok r => .ok (if b then a :: r else r)

/-- Decimal rendering of a rational: plain integer when the denominator is
1, otherwise numerator/denominator.  Stands in for Python number repr. -/
def ratStr (q : Rat) : String :=
  if q.den = 1 then toString q.num
  else toString q.num ++ "/" ++ toString q.den

/-- Rendering of a rational with two decimals, rounding half to even, as
Python `:.2f` does (`src/ex1/data_stream.py` line 46). -/
def fmt2 (q : Rat) : String :=
  let scaled : Rat := q * 100
  let fl : Int := scaled.floor
  let frac : Rat := scaled - (fl : Rat)
  let n : Int :=
    if (1 : Rat) / 2 < frac then fl + 1
    else if frac < (1 : Rat) / 2 then fl
    else if fl % 2 = 0 then fl else fl + 1
  let sign : String := if n < 0 then "-" else ""
  let m : Nat := n.natAbs
  let r : Nat := m % 100
  sign ++ toString (m / 100) ++ "." ++ (if r < 10 then "0" else "") ++ toString r

/-! ## ex1: the stream hierarchy (`src/ex1/data_stream.py`) -/

/-- The concrete DataStream subclass a stream instance belongs to. -/
inductive StreamKind : Type
  | sensor
  | transaction
  | event
deriving DecidableEq

/-- A DataStream instance: its class tag, the attributes set by
`DataStream.__init__` (`processed_count`, `stream_id`) and the `type`
label overwritten by each subclass constructor. -/
structure DataStream : Type where
  kind : StreamKind
  stream_id : String
  processed_count : Nat
  type : String
deriving DecidableEq

/-- `SensorStream("id")`: count 0, label "Environmental Data". -/
def SensorStream.init (id : String) : DataStream :=
  ⟨.sensor, id, 0, "Environmental Data"⟩

/-- `TransactionStream("id")`: count 0, label "Transaction Stream". -/
def TransactionStream.init (id : String) : DataStream :=
  ⟨.transaction, id, 0, "Transaction Stream"⟩

/-- `EventStream("id")`: count 0, label "Event Stream". -/
def EventStream.init (id : String) : DataStream :=
  ⟨.event, id, 0, "Event Stream"⟩

/-- The failure string of `SensorStream.process_batch` (line 40). -/
def sensorInvalid (id : String) : String :=
  "[" ++ id ++ "] Invalid sensor data"

/-- The success string of `SensorStream.process_batch` (lines 44-47). -/
def sensorMsg (id : String) (n : Nat) (avg : Rat) : String :=
  "[" ++ id ++ "] " ++ toString n ++ " readings processed, avg: " ++ fmt2 avg

/-- The failure string of `TransactionStream.process_batch` (line 74). -/
def transactionInvalid (id : String) : String :=
  "[" ++ id ++ "] Invalid transaction data"

/-- The success string of `TransactionStream.process_batch` (lines 78-81). -/
def transactionMsg (id : String) (n : Nat) (total : Rat) : String :=
  "[" ++ id ++ "] " ++ toString n ++ " operations processed, net flow: " ++
    ratStr total

/-- The success string of `EventStream.process_batch` (lines 116-119). -/
def eventMsg (id : String) (total errors : Nat) : String :=
  "[" ++ id ++ "] " ++ toString total ++ " events processed, " ++
    toString errors ++ " error(s)"

/-- The aggregation attempted inside `SensorStream.process_batch`:
`sum(data_batch) / len(data_batch)`; `sum` may raise TypeError and the
division raises ZeroDivisionError on an empty batch (lines 37-38). -/
def sensorAggregate (batch : List PyVal) : Except PyExc Rat :=
  match pySum batch with
  | .error e => .error e
  | .ok s =>
    if batch.length = 0 then .error .zeroDivisionError
    else .ok (s / (batch.length : Rat))

/-- `SensorStream.process_batch` (lines 36-47): on an exception from the
aggregation return the invalid-data string and leave the count unchanged,
otherwise increment `processed_count` by the batch length and return the
summary line. -/
def SensorStream.process_batch (st : DataStream) (batch : List PyVal) :
    String × DataStream :=
  match sensorAggregate batch with
  | .error _ => (sensorInvalid st.stream_id, st)
  | .ok average =>
    (sensorMsg st.stream_id batch.length average,
     { st with processed_count := st.processed_count + batch.length })

/-- `SensorStream.filter_data` (lines 49-61): None and unrecognized
criteria return the batch unchanged; "high" and "standard" filter by the
threshold 30 and may raise TypeError on a non-numeric element. -/
def SensorStream.filter_data (batch : List PyVal) (criteria : Option String) :
    Except PyExc (List PyVal) :=
  match criteria with
  | none => .ok batch
  | some c =>
    if c = "high" then exFilter (fun v => pyGt v 30) batch
    else if c = "standard" then exFilter (fun v => pyLe v 30) batch
    else .ok batch

/-- The aggregation attempted inside `TransactionStream.process_batch`:
`sum(data_batch)` (line 72); only TypeError can arise. -/
def transactionAggregate (batch : List PyVal) : Except PyExc Rat :=
  pySum batch

/-- `TransactionStream.process_batch` (lines 70-81). -/
def TransactionStream.process_batch (st : DataStream) (batch : List PyVal) :
    String × DataStream :=
  match transactionAggregate batch with
  | .error _ => (transactionInvalid st.stream_id, st)
  | .ok total =>
    (transactionMsg st.stream_id batch.length total,
     { st with processed_count := st.processed_count + batch.length })

/-- `TransactionStream.filter_data` (lines 83-95). -/
def TransactionStream.filter_data (batch : List PyVal) (criteria : Option String) :
    Except PyExc (List PyVal) :=
  match criteria with
  | none => .ok batch
  | some c =>
    if c = "positive" then exFilter (fun v => pyGe v 0) batch
    else if c = "negative" then exFilter (fun v => pyLt v 0) batch
    else .ok batch

/-- The error count computed inside `EventStream.process_batch` (lines
107-110): a left fold of the generator
`sum(1 for event in data_batch if isinstance(event, str) and "error" in event)`;
the isinstance guard makes it total. -/
def eventErrorCount (batch : List PyVal) : Nat :=
  batch.foldl
    (fun acc v =>
      match v with
      | .str s => if strContains "error" s then acc + 1 else acc
      | _ => acc)
    0

/-- `EventStream.process_batch` (lines 104-119): counts events and error
events; no exception can occur on a list batch, so the except branch of
the source is never taken and every batch succeeds. -/
def EventStream.process_batch (st : DataStream) (batch : List PyVal) :
    String × DataStream :=
  (eventMsg st.stream_id batch.length (eventErrorCount batch),
   { st with processed_count := st.processed_count + batch.length })

/-- `EventStream.filter_data` (lines 121-133): "error" keeps elements with
substring "error", "info" keeps the others; the membership test raises
TypeError on a non-string element. -/
def EventStream.filter_data (batch : List PyVal) (criteria : Option String) :
    Except PyExc (List PyVal) :=
  match criteria with
  | none => .ok batch
  | some c =>
    if c = "error" then exFilter pyInError batch
    else if c = "info" then
      exFilter (fun v =>
        match pyInError v with
        | .error e => .error e
        | .ok b => .ok (!b)) batch
    else .ok batch

/-- Dynamic dispatch of `process_batch` on the stream's concrete class. -/
def DataStream.process_batch (st : DataStream) (batch : List PyVal) :
    String × DataStream :=
  match st.kind with
  | .sensor => SensorStream.process_batch st batch
  | .transaction => TransactionStream.process_batch st batch
  | .event => EventStream.process_batch st batch

/-- Dynamic dispatch of `filter_data` on the stream's concrete class. -/
def DataStream.filter_data (st : DataStream) (batch : List PyVal)
    (criteria : Option String) : Except PyExc (List PyVal) :=
  match st.kind with
  | .sensor => SensorStream.filter_data batch criteria
  | .transaction => TransactionStream.filter_data batch criteria
  | .event => EventStream.filter_data batch criteria

/-- `DataStream.get_stats` (lines 23-27): the identifier and the running
count; it reads the stream without modifying it. -/
def DataStream.get_stats (st : DataStream) : String × Nat :=
  (st.stream_id, st.processed_count)

/-- One observable operation on a stream instance. -/
inductive Op : Type
  | process_batch (batch : List PyVal)
  | filter_data (batch : List PyVal) (criteria : Option String)
  | get_stats

/-- The stream state after one operation: only `process_batch` writes the
instance; `filter_data` and `get_stats` return values and leave it as is. -/
def runOp (st : DataStream) : Op → DataStream
  | .process_batch batch => (DataStream.process_batch st batch).2
  | .filter_data _ _ => st
  | .get_stats => st

/-- The stream state after a sequence of operations. -/
def runOps (st : DataStream) (ops : List Op) : DataStream :=
  ops.foldl runOp st

/-- Whether the aggregation step of `process_batch` succeeds for the given
concrete class, i.e. whether the call increments the count. -/
def aggSuccess (k : StreamKind) (batch : List PyVal) : Bool :=
  match k with
  | .sensor => (sensorAggregate batch).toBool
  | .transaction => (transactionAggregate batch).toBool
  | .event => true

/-- The amount one operation adds to `processed_count`: the batch size of
a successful `process_batch`, zero otherwise. -/
def opGain (k : StreamKind) : Op → Nat
  | .process_batch batch => if aggSuccess k batch then batch.length else 0
  | _ => 0

/-- Total count gain of a sequence of operations. -/
def opsGain (k : StreamKind) (ops : List Op) : Nat :=
  (ops.map (opGain k)).sum

/-! ## ex1: the orchestrator (`src/ex1/data_stream.py` lines 136-167) -/

/-- `data_map.get(stream_id, [])`: dictionary lookup with the empty batch
as default (line 146). -/
def lookupBatch (data_map : List (String × List PyVal)) (id : String) :
    List PyVal :=
  (data_map.lookup id).getD []

/-- A one-line message shown for a PyExc, standing in for Python str(e). -/
def pyExcMsg : PyExc → String
  | .typeError => "TypeError"
  | .zeroDivisionError => "ZeroDivisionError"
  | .attributeError => "AttributeError"

/-- The line `StreamProcessor.process_streams` prints for one stream: the
`process_batch` result, or the caught-error line (lines 147-151).  The
processing step is a parameter: the loop calls the abstract method
`process_batch` through dynamic dispatch, so any DataStream subclass,
including a raising one, can stand behind it. -/
def streamLine (step : DataStream → List PyVal → Except PyExc (String × DataStream))
    (data_map : List (String × List PyVal)) (st : DataStream) : String :=
  match step st (lookupBatch data_map st.stream_id) with
  | .ok (result, _) => result
  | .error e => "Processing error in " ++ st.stream_id ++ ": " ++ pyExcMsg e

/-- The stream instance left behind by one loop iteration of
`process_streams`: updated on success, untouched when the call raised. -/
def streamAfter (step : DataStream → List PyVal → Except PyExc (String × DataStream))
    (data_map : List (String × List PyVal)) (st : DataStream) : DataStream :=
  match step st (lookupBatch data_map st.stream_id) with
  | .ok (_, st2) => st2
  | .error _ => st

/-- `StreamProcessor.process_streams` (lines 141-151): iterate the held
streams in order; for each, look up its batch (missing entries give the
empty batch), call `process_batch` in a try block, and print the result or
the caught-error line.  Returns the printed lines and the streams as left
by their calls. -/
def StreamProcessor.process_streams
    (step : DataStream → List PyVal → Except PyExc (String × DataStream))
    (streams : List DataStream) (data_map : List (String × List PyVal)) :
    List String × List DataStream :=
  match streams with
  | [] => ([], [])
  | st :: rest =>
    let tail := StreamProcessor.process_streams step rest data_map
    (streamLine step data_map st :: tail.1,
     streamAfter step data_map st :: tail.2)

/-- The non-raising step used by the program itself: the three concrete
subclasses, whose `process_batch` always returns a string. -/
def concreteStep (st : DataStream) (batch : List PyVal) :
    Except PyExc (String × DataStream) :=
  .ok (DataStream.process_batch st batch)

/-! ## ex0: the processor hierarchy (`src/ex0/stream_processor.py`) -/

/-- An input handed to an ex0 processor: a scalar or a list of scalars. -/
inductive PyData : Type
  | val (v : PyVal)
  | list (l : List PyVal)
deriving DecidableEq

/-- Python iteration `for x in data`: a list yields its elements, a string
yields its characters as one-character strings, and a number raises
TypeError. -/
def pyIter : PyData → Except PyExc (List PyVal)
  | .val (.str s) => .ok (s.data.map (fun c => PyVal.str (String.singleton c)))
  | .val _ => .error .typeError
  | .list l => .ok l

/-- The attribute access `num.is_integer` done for each element
(`src/ex0/stream_processor.py` line 21): present on int and float,
AttributeError on str. -/
def pyAttrIsInteger (v : PyVal) : Except PyExc Unit :=
  match v with
  | .str _ => .error .attributeError
  | _ => .ok ()

/-- The loop body of `NumericProcessor.validate`: touch `is_integer` on
each element in order, propagating the first AttributeError. -/
def numericScan : List PyVal → Except PyExc Unit
  | [] => .ok ()
  | v :: t =>
    match pyAttrIsInteger v with
    | .error e => .error e
    | .ok _ => numericScan t

/-- `NumericProcessor.validate` (lines 18-26): iterate the input touching
`is_integer` on every element; AttributeError and TypeError are caught and
reported as "Not list of numbers".  Returns the boolean together with the
printed lines. -/
def NumericProcessor.validate (data : PyData) : Bool × List String :=
  match pyIter data with
  | .error _ => (false, ["Not list of numbers"])
  | .ok l =>
    match numericScan l with
    | .error _ => (false, ["Not list of numbers"])
    | .ok _ => (true, ["Validation: Numeric data verified"])

/-- Python `len(data)` on a processor input: length of a list or string,
TypeError on a number. -/
def pyDataLen : PyData → Except PyExc Nat
  | .val (.str s) => .ok s.length
  | .val _ => .error .typeError
  | .list l => .ok l.length

/-- Python `sum(data)` on a processor input: the numeric fold over a list,
TypeError on a number (not iterable) and on any string element; summing
the characters of a non-empty string raises TypeError, while the empty
string sums to 0. -/
def pyDataSum : PyData → Except PyExc Rat
  | .val (.str s) => if s.data = [] then .ok 0 else .error .typeError
  | .val _ => .error .typeError
  | .list l => pySum l

/-- The result string of `NumericProcessor.process` for count n, sum s and
average a. -/
def numericMsg (n : Nat) (s a : Rat) : String :=
  "Processed " ++ toString n ++ " numeric values , sum=" ++ ratStr s ++
    ", avg=" ++ ratStr a

/-- `NumericProcessor.process` (lines 28-32): format length, sum and
average; the f-string evaluates `len(data)`, then `sum(data)`, then the
quotient, so the empty list reaches the division and raises
ZeroDivisionError uncaught. -/
def NumericProcessor.process (data : PyData) : Except PyExc String :=
  match pyDataLen data with
  | .error e => .error e
  | .ok n =>
    match pyDataSum data with
    | .error e => .error e
    | .ok s =>
      if n = 0 then .error .zeroDivisionError
      else .ok (numericMsg n s (s / (n : Rat)))

/-- `TextProcessor.validate` (lines 36-43): call `data.capitalize()`,
catching the AttributeError a non-string raises. -/
def TextProcessor.validate (data : PyData) : Bool × List String :=
  match data with
  | .val (.str _) => (true, ["Validation: Text data verified"])
  | _ => (false, ["Not a string"])

/-- `LogProcessor.validate` (lines 50-58): on a string, return True with a
printed line when it contains "ERROR" or "INFO" and otherwise fall through
to a silent False; on a non-string the `.find` access raises
AttributeError, caught and reported as "Not a log entry". -/
def LogProcessor.validate (data : PyData) : Bool × List String :=
  match data with
  | .val (.str s) =>
    if strContains "ERROR" s || strContains "INFO" s then
      (true, ["Validation: Log entry verified"])
    else (false, [])
  | _ => (false, ["Not a log entry"])

/-! ## Spec-side predicates and helper lemmas -/

/-- The expected input shape of NumericProcessor per the spec: an iterable
of numerics. -/
def numericShape (d : PyData) : Bool :=
  match pyIter d with
  | .ok l => l.all PyVal.isNum
  | .error _ => false

/-- The expected input shape of TextProcessor per the spec: a string. -/
def textShape (d : PyData) : Bool :=
  match d with
  | .val (.str _) => true
  | _ => false

/-- The expected input shape of LogProcessor per the spec: a string
containing a recognized log-level marker. -/
def logShape (d : PyData) : Bool :=
  match d with
  | .val (.str s) => strContains "ERROR" s || strContains "INFO" s
  | _ => false

/-- The mathematical sum of a numeric batch. -/
def ratSum (l : List PyVal) : Rat :=
  (l.map PyVal.toRat).sum

/-- An event item counted as an error: a string containing "error". -/
def isErrorEvent (v : PyVal) : Bool :=
  match v with
  | .str s => strContains "error" s
  | _ => false

theorem pySumAux_num (l : List PyVal) (h : l.all PyVal.isNum = true) :
    ∀ acc : Rat, pySumAux acc l = .ok (acc + ratSum l) := by
  induction l with
  | nil => intro acc; simp [pySumAux, ratSum]
  | cons v t ih =>
    intro acc
    simp only [List.all_cons, Bool.and_eq_true] at h
    cases v with
    | int n =>
      rw [show pySumAux acc (PyVal.int n :: t) = pySumAux (acc + (n : Rat)) t from rfl,
        ih h.2]
      simp [ratSum, PyVal.toRat, add_assoc]
    | float q =>
      rw [show pySumAux acc (PyVal.float q :: t) = pySumAux (acc + q) t from rfl,
        ih h.2]
      simp [ratSum, PyVal.toRat, add_assoc]
    | str s => simp [PyVal.isNum] at h

theorem pySum_num (l : List PyVal) (h : l.all PyVal.isNum = true) :
    pySum l = .ok (ratSum l) := by
  rw [pySum, pySumAux_num l h 0, zero_add]

theorem pySumAux_err (l : List PyVal) (h : l.all PyVal.isNum = false) :
    ∀ acc : Rat, pySumAux acc l = .error .typeError := by
  induction l with
  | nil => simp [List.all_nil] at h
  | cons v t ih =>
    intro acc
    cases v with
    | int n =>
      have ht : t.all PyVal.isNum = false := by
        simpa [PyVal.isNum] using h
      exact ih ht _
    | float q =>
      have ht : t.all PyVal.isNum = false := by
        simpa [PyVal.isNum] using h
      exact ih ht _
    | str s => rfl

theorem pySum_err (l : List PyVal) (h : l.all PyVal.isNum = false) :
    pySum l = .error .typeError :=
  pySumAux_err l h 0

theorem exFilter_ok (p : PyVal → Except PyExc Bool) (q : PyVal → Bool)
    (l : List PyVal) (h : ∀ v ∈ l, p v = .ok (q v)) :
    exFilter p l = .ok (l.filter q) := by
  induction l with
  | nil => rfl
  | cons a t ih =>
    have ha : p a = .ok (q a) := h a (List.mem_cons_self a t)
    have ht := ih (fun v hv => h v (List.mem_cons_of_mem a hv))
    simp only [exFilter, ha, ht, List.filter_cons]

theorem eventErrorCount_aux (l : List PyVal) : ∀ acc : Nat,
    l.foldl
      (fun acc v =>
        match v with
        | .str s => if strContains "error" s then acc + 1 else acc
        | _ => acc)
      acc = acc + l.countP isErrorEvent := by
  induction l with
  | nil => intro acc; simp
  | cons v t ih =>
    intro acc
    cases v with
    | int n => simp [List.foldl_cons, ih, List.countP_cons, isErrorEvent]
    | float q => simp [List.foldl_cons, ih, List.countP_cons, isErrorEvent]
    | str s =>
      by_cases hs : strContains "error" s = true
      · simp [List.foldl_cons, hs, ih, List.countP_cons, isErrorEvent,
          Nat.add_comm, Nat.add_assoc, Nat.add_left_comm]
      · simp [List.foldl_cons, hs, ih, List.countP_cons, isErrorEvent]

theorem eventErrorCount_eq (l : List PyVal) :
    eventErrorCount l = l.countP isErrorEvent := by
  simpa using eventErrorCount_aux l 0

theorem sensorAggregate_num (batch : List PyVal)
    (hnum : batch.all PyVal.isNum = true) (hne : batch ≠ []) :
    sensorAggregate batch = .ok (ratSum batch / (batch.length : Rat)) := by
  rw [sensorAggregate, pySum_num batch hnum]
  simp [List.length_eq_zero, hne]

theorem sensorAggregate_fail (batch : List PyVal)
    (h : batch = [] ∨ batch.all PyVal.isNum = false) :
    sensorAggregate batch =
      .error (if batch.all PyVal.isNum then .zeroDivisionError else .typeError) := by
  rcases h with h | h
  · subst h; rfl
  · rw [sensorAggregate, pySum_err batch h, h]
    simp

theorem sensor_process_batch_ok (st : DataStream) (batch : List PyVal)
    (hnum : batch.all PyVal.isNum = true) (hne : batch ≠ []) :
    SensorStream.process_batch st batch =
      (sensorMsg st.stream_id batch.length (ratSum batch / (batch.length : Rat)),
       { st with processed_count := st.processed_count + batch.length }) := by
  rw [SensorStream.process_batch, sensorAggregate_num batch hnum hne]

theorem sensor_process_batch_fail (st : DataStream) (batch : List PyVal)
    (h : batch = [] ∨ batch.all PyVal.isNum = false) :
    SensorStream.process_batch st batch = (sensorInvalid st.stream_id, st) := by
  rw [SensorStream.process_batch, sensorAggregate_fail batch h]

theorem transaction_process_batch_ok (st : DataStream) (batch : List PyVal)
    (hnum : batch.all PyVal.isNum = true) :
    TransactionStream.process_batch st batch =
      (transactionMsg st.stream_id batch.length (ratSum batch),
       { st with processed_count := st.processed_count + batch.length }) := by
  rw [TransactionStream.process_batch, transactionAggregate, pySum_num batch hnum]

theorem transaction_process_batch_fail (st : DataStream) (batch : List PyVal)
    (h : batch.all PyVal.isNum = false) :
    TransactionStream.process_batch st batch = (transactionInvalid st.stream_id, st) := by
  rw [TransactionStream.process_batch, transactionAggregate, pySum_err batch h]

theorem runOp_kind (st : DataStream) (op : Op) : (runOp st op).kind = st.kind := by
  cases op with
  | process_batch b =>
    show (DataStream.process_batch st b).2.kind = st.kind
    rw [DataStream.process_batch]
    cases h : st.kind
    · rw [SensorStream.process_batch]
      cases sensorAggregate b
      · exact h
      · exact h
    · rw [TransactionStream.process_batch]
      cases transactionAggregate b
      · exact h
      · exact h
    · exact h
  | filter_data b c => rfl
  | get_stats => rfl

theorem runOp_count (st : DataStream) (op : Op) :
    (runOp st op).processed_count = st.processed_count + opGain st.kind op := by
  cases op with
  | process_batch b =>
    show (DataStream.process_batch st b).2.processed_count = _
    rw [DataStream.process_batch, opGain]
    cases st.kind
    · rw [SensorStream.process_batch, aggSuccess]
      cases sensorAggregate b <;> simp [Except.toBool]
    · rw [TransactionStream.process_batch, aggSuccess]
      cases transactionAggregate b <;> simp [Except.toBool]
    · simp [EventStream.process_batch, aggSuccess]
  | filter_data b c => simp [runOp, opGain]
  | get_stats => simp [runOp, opGain]

theorem runOps_kind (ops : List Op) : ∀ st : DataStream,
    (runOps st ops).kind = st.kind := by
  induction ops with
  | nil => intro st; rfl
  | cons op t ih =>
    intro st
    show (runOps (runOp st op) t).kind = st.kind
    rw [ih (runOp st op), runOp_kind]

theorem runOps_count (ops : List Op) : ∀ st : DataStream,
    (runOps st ops).processed_count = st.processed_count + opsGain st.kind ops := by
  induction ops with
  | nil => intro st; simp [runOps, opsGain]
  | cons op t ih =>
    intro st
    show (runOps (runOp st op) t).processed_count = _
    rw [ih (runOp st op), runOp_count, runOp_kind]
    simp [opsGain, Nat.add_assoc]

instance {ε α : Type} [DecidableEq ε] [DecidableEq α] : DecidableEq (Except ε α) :=
  fun x y =>
    match x, y with
    | .ok a, .ok b =>
      if h : a = b then .isTrue (by rw [h])
      else .isFalse (by intro hc; cases hc; exact h rfl)
    | .ok _, .error _ => .isFalse (fun hc => Except.noConfusion hc)
    | .error _, .ok _ => .isFalse (fun hc => Except.noConfusion hc)
    | .error e, .error f =>
      if h : e = f then .isTrue (by rw [h])
      else .isFalse (by intro hc; cases hc; exact h rfl)

theorem runOps_append (st : DataStream) (l₁ l₂ : List Op) :
    runOps st (l₁ ++ l₂) = runOps (runOps st l₁) l₂ := by
  simp [runOps, List.foldl_append]

theorem numericScan_ok (l : List PyVal) (h : l.all PyVal.isNum = true) :
    numericScan l = .ok () := by
  induction l with
  | nil => rfl
  | cons v t ih =>
    simp only [List.all_cons, Bool.and_eq_true] at h
    cases v with
    | int n => simpa [numericScan, pyAttrIsInteger] using ih h.2
    | float q => simpa [numericScan, pyAttrIsInteger] using ih h.2
    | str s => simp [PyVal.isNum] at h

theorem numericScan_err (l : List PyVal) (h : l.all PyVal.isNum = false) :
    numericScan l = .error .attributeError := by
  induction l with
  | nil => simp at h
  | cons v t ih =>
    cases v with
    | int n =>
      have ht : t.all PyVal.isNum = false := by simpa [PyVal.isNum] using h
      simpa [numericScan, pyAttrIsInteger] using ih ht
    | float q =>
      have ht : t.all PyVal.isNum = false := by simpa [PyVal.isNum] using h
      simpa [numericScan, pyAttrIsInteger] using ih ht
    | str s => rfl

theorem numeric_validate_eq (d : PyData) :
    NumericProcessor.validate d =
      (numericShape d,
       if numericShape d = true then ["Validation: Numeric data verified"]
       else ["Not list of numbers"]) := by
  cases d with
  | val v =>
    cases v with
    | int n => rfl
    | float q => rfl
    | str s =>
      by_cases hall :
          (List.map (fun c => PyVal.str (String.singleton c)) s.data).all PyVal.isNum = true
      · simp [NumericProcessor.validate, pyIter, numericShape, numericScan_ok _ hall, hall]
      · have hf :
            (List.map (fun c => PyVal.str (String.singleton c)) s.data).all PyVal.isNum
              = false := by simpa using hall
        simp [NumericProcessor.validate, pyIter, numericShape, numericScan_err _ hf, hf]
  | list l =>
    by_cases hall : l.all PyVal.isNum = true
    · simp [NumericProcessor.validate, pyIter, numericShape, numericScan_ok _ hall, hall]
    · have hf : l.all PyVal.isNum = false := by simpa using hall
      simp [NumericProcessor.validate, pyIter, numericShape, numericScan_err _ hf, hf]

/-- The per-variant criteria names recognized by `filter_data`
(`src/ex1/data_stream.py` lines 57-59, 91-93, 129-131). -/
def recognizedCriteria (k : StreamKind) : List String :=
  match k with
  | .sensor => ["high", "standard"]
  | .transaction => ["positive", "negative"]
  | .event => ["error", "info"]

/-! ## The claims -/

/-- Claim C8: for every event batch, `EventStream.process_batch` reports a
total equal to the batch length and an error count equal to the number of
items that are strings containing "error" as a substring; the batch
["login", "error", "logout"] yields error count 1 of total 3. -/
theorem claim_C8 :
    (∀ (st : DataStream) (batch : List PyVal),
      EventStream.process_batch st batch =
        (eventMsg st.stream_id batch.length (batch.countP isErrorEvent),
         { st with processed_count := st.processed_count + batch.length })) ∧
    (EventStream.process_batch (EventStream.init "EVENT_001")
        [PyVal.str "login", PyVal.str "error", PyVal.str "logout"]).1 =
      "[EVENT_001] 3 events processed, 1 error(s)" := by
  constructor
  · intro st batch
    rw [EventStream.process_batch, eventErrorCount_eq]
  · decide

/-- Claim C9: on a batch with a non-string item, `EventStream.filter_data`
with criteria "error" or "info" raises TypeError, and
`SensorStream.filter_data` with "high" raises on an item incomparable with
30, while `process_batch` of the same streams on the same batches returns
a result string without raising (the event stream even counts the batch as
processed, the sensor stream reports invalid data). -/
theorem claim_C9 :
    EventStream.filter_data [PyVal.int 5] (some "error") = .error .typeError ∧
    EventStream.filter_data [PyVal.int 5] (some "info") = .error .typeError ∧
    SensorStream.filter_data [PyVal.str "x"] (some "high") = .error .typeError ∧
    EventStream.process_batch (EventStream.init "E") [PyVal.int 5] =
      (eventMsg "E" 1 0, { EventStream.init "E" with processed_count := 1 }) ∧
    SensorStream.process_batch (SensorStream.init "S") [PyVal.str "x"] =
      (sensorInvalid "S", SensorStream.init "S") := by
  refine ⟨by decide, by decide, by decide, by decide, by decide⟩

/-- Claim C10: `NumericProcessor.validate` accepts the empty list (the
element check is vacuous), yet `NumericProcessor.process` on that same
input raises ZeroDivisionError on the division by the length. -/
theorem claim_C10 :
    NumericProcessor.validate (PyData.list []) =
      (true, ["Validation: Numeric data verified"]) ∧
    NumericProcessor.process (PyData.list []) = .error .zeroDivisionError := by
  refine ⟨by decide, by decide⟩

/-- Claim C3: `processed_count` starts at 0 for every variant, never
decreases along any operation sequence, is left unchanged by `filter_data`
and `get_stats`, and after any operation sequence equals its initial value
plus the sum of the batch sizes of exactly the successful `process_batch`
calls (`opsGain`). -/
theorem claim_C3 :
    (∀ id : String,
      (SensorStream.init id).processed_count = 0 ∧
      (TransactionStream.init id).processed_count = 0 ∧
      (EventStream.init id).processed_count = 0) ∧
    (∀ (st : DataStream) (l₁ l₂ : List Op),
      (runOps st l₁).processed_count ≤ (runOps st (l₁ ++ l₂)).processed_count) ∧
    (∀ (st : DataStream) (batch : List PyVal) (criteria : Option String),
      runOp st (.filter_data batch criteria) = st ∧ runOp st .get_stats = st) ∧
    (∀ (st : DataStream) (ops : List Op),
      (runOps st ops).processed_count = st.processed_count + opsGain st.kind ops) := by
  refine ⟨fun id => ⟨rfl, rfl, rfl⟩, ?_, fun st batch criteria => ⟨rfl, rfl⟩, ?_⟩
  · intro st l₁ l₂
    rw [runOps_append, runOps_count l₂ (runOps st l₁)]
    exact Nat.le_add_right _ _
  · intro st ops
    exact runOps_count ops st

/-- Claim C5: for every stream variant, `filter_data` with an absent
criteria (None) or one that is not among that variant's recognized names
returns the input batch unchanged. -/
theorem claim_C5 (st : DataStream) (batch : List PyVal) (criteria : Option String)
    (h : ∀ c, criteria = some c → c ∉ recognizedCriteria st.kind) :
    DataStream.filter_data st batch criteria = .ok batch := by
  cases criteria with
  | none =>
    cases hk : st.kind <;>
      simp [DataStream.filter_data, hk, SensorStream.filter_data,
        TransactionStream.filter_data, EventStream.filter_data]
  | some c =>
    have hc := h c rfl
    cases hk : st.kind <;> rw [hk] at hc <;> simp [recognizedCriteria] at hc
    · simp [DataStream.filter_data, hk, SensorStream.filter_data, hc.1, hc.2]
    · simp [DataStream.filter_data, hk, TransactionStream.filter_data, hc.1, hc.2]
    · simp [DataStream.filter_data, hk, EventStream.filter_data, hc.1, hc.2]

/-- Witness for C5: a sensor stream with the unrecognized criteria
"custom" returns the batch unchanged. -/
theorem claim_C5_witness :
    DataStream.filter_data (SensorStream.init "S") [PyVal.int 1] (some "custom") =
      .ok [PyVal.int 1] :=
  claim_C5 (SensorStream.init "S") [PyVal.int 1] (some "custom")
    (fun c hc => by injection hc with h2; rw [← h2]; decide)

/-- Claim C6: on a numeric batch, `SensorStream.filter_data` with "high"
returns the order-preserving subsequence of values strictly above 30 and
with "standard" the subsequence of values at most 30; in particular the
batch [22.5, 50, 21.8] with "high" yields [50]. -/
theorem claim_C6 (batch : List PyVal) (hnum : batch.all PyVal.isNum = true) :
    SensorStream.filter_data batch (some "high") =
      .ok (batch.filter (fun v => decide ((30 : Rat) < v.toRat))) ∧
    SensorStream.filter_data batch (some "standard") =
      .ok (batch.filter (fun v => decide (v.toRat ≤ (30 : Rat)))) ∧
    SensorStream.filter_data [PyVal.float 22.5, PyVal.int 50, PyVal.float 21.8]
        (some "high") = .ok [PyVal.int 50] := by
  refine ⟨?_, ?_, ?_⟩
  · simp only [SensorStream.filter_data, if_pos]
    apply exFilter_ok
    intro v hv
    have hvn := List.all_eq_true.mp hnum v hv
    cases v with
    | int n => rfl
    | float q => rfl
    | str s => simp [PyVal.isNum] at hvn
  · simp only [SensorStream.filter_data, ite_true]
    apply exFilter_ok
    intro v hv
    have hvn := List.all_eq_true.mp hnum v hv
    cases v with
    | int n => rfl
    | float q => rfl
    | str s => simp [PyVal.isNum] at hvn
  · simp only [SensorStream.filter_data, if_pos]
    norm_num [exFilter, pyGt]

/-- Witness for C6: the numeric-batch hypothesis discharged on the batch
[22.5, 50, 21.8] of the program's own demo data. -/
theorem claim_C6_witness :
    SensorStream.filter_data [PyVal.float 22.5, PyVal.int 50, PyVal.float 21.8]
        (some "high") = .ok [PyVal.int 50] :=
  (claim_C6 [PyVal.float 22.5, PyVal.int 50, PyVal.float 21.8] (by decide)).2.2

/-- Claim C7: `process_streams` produces exactly one line per held stream,
in order (so a failure in one stream cannot halt the others); a stream
whose identifier is missing from the data map is processed with the empty
batch; and a processing step that raises is reported as the caught-error
line for that stream. -/
theorem claim_C7 :
    (∀ (step : DataStream → List PyVal → Except PyExc (String × DataStream))
        (streams : List DataStream) (data_map : List (String × List PyVal)),
      StreamProcessor.process_streams step streams data_map =
        (streams.map (streamLine step data_map),
         streams.map (streamAfter step data_map))) ∧
    (∀ (data_map : List (String × List PyVal)) (id : String),
      data_map.lookup id = none → lookupBatch data_map id = []) ∧
    (∀ (step : DataStream → List PyVal → Except PyExc (String × DataStream))
        (data_map : List (String × List PyVal)) (st : DataStream) (e : PyExc),
      step st (lookupBatch data_map st.stream_id) = .error e →
      streamLine step data_map st =
        "Processing error in " ++ st.stream_id ++ ": " ++ pyExcMsg e) := by
  refine ⟨?_, ?_, ?_⟩
  · intro step streams data_map
    induction streams with
    | nil => rfl
    | cons st rest ih =>
      simp only [StreamProcessor.process_streams, ih, List.map_cons]
  · intro data_map id h
    simp [lookupBatch, h]
  · intro step data_map st e h
    simp [streamLine, h]

/-- A processing step used to exercise the catch branch of
`process_streams`: it raises TypeError on the stream "A" and behaves as the
program's own dispatch elsewhere. -/
def demoStep (st : DataStream) (batch : List PyVal) :
    Except PyExc (String × DataStream) :=
  if st.stream_id = "A" then .error .typeError else concreteStep st batch

/-- The stream collection for the C7 witness. -/
def demoStreams : List DataStream :=
  [SensorStream.init "A", EventStream.init "B"]

/-- The data map for the C7 witness; it has no entry for "A". -/
def demoMap : List (String × List PyVal) :=
  [("B", [PyVal.str "error"])]

/-- Witness for C7: on the demo instances, the per-stream lines are
produced for both streams even though the first one raises, the missing
identifier "A" falls back to the empty batch, and the raising stream is
reported with the caught-error line. -/
theorem claim_C7_witness :
    StreamProcessor.process_streams demoStep demoStreams demoMap =
      (demoStreams.map (streamLine demoStep demoMap),
       demoStreams.map (streamAfter demoStep demoMap)) ∧
    lookupBatch demoMap "A" = [] ∧
    streamLine demoStep demoMap (SensorStream.init "A") =
      "Processing error in " ++ (SensorStream.init "A").stream_id ++ ": " ++
        pyExcMsg .typeError := by
  have h := claim_C7
  refine ⟨h.1 demoStep demoStreams demoMap, h.2.1 demoMap "A" (by decide), ?_⟩
  exact h.2.2 demoStep demoMap (SensorStream.init "A") .typeError (by decide)

/-- Counterexample to claim C1 as stated: at n = 0 (the empty list),
`NumericProcessor.process` raises ZeroDivisionError uncaught, contrary to
the claim that neither call raises there. -/
theorem claim_C1_counterexample :
    NumericProcessor.process (PyData.list []) = .error .zeroDivisionError := by
  decide

/-- Claim C1 (amended): for numeric batches both calls report the average
sum/length when the batch is nonempty; at n = 0,
`SensorStream.process_batch` returns the invalid-data string without
raising, while `NumericProcessor.process` raises ZeroDivisionError. -/
theorem claim_C1 (st : DataStream) (batch : List PyVal)
    (hnum : batch.all PyVal.isNum = true) :
    SensorStream.process_batch st batch =
      (if batch.isEmpty = true then (sensorInvalid st.stream_id, st)
       else
         (sensorMsg st.stream_id batch.length (ratSum batch / (batch.length : Rat)),
          { st with processed_count := st.processed_count + batch.length })) ∧
    NumericProcessor.process (PyData.list batch) =
      (if batch.isEmpty = true then .error .zeroDivisionError
       else .ok (numericMsg batch.length (ratSum batch)
         (ratSum batch / (batch.length : Rat)))) := by
  constructor
  · by_cases he : batch.isEmpty = true
    · have hb : batch = [] := by simpa [List.isEmpty_iff] using he
      subst hb
      simp [sensor_process_batch_fail st [] (Or.inl rfl)]
    · have hb : batch ≠ [] := by simpa [List.isEmpty_iff] using he
      have he2 : batch.isEmpty = false := by simpa using he
      rw [sensor_process_batch_ok st batch hnum hb]
      simp [he2]
  · by_cases he : batch.isEmpty = true
    · have hb : batch = [] := by simpa [List.isEmpty_iff] using he
      subst hb
      decide
    · have hb : batch ≠ [] := by simpa [List.isEmpty_iff] using he
      have he2 : batch.isEmpty = false := by simpa using he
      have hl : batch.length ≠ 0 := by simpa [List.length_eq_zero] using hb
      simp only [NumericProcessor.process, pyDataLen, pyDataSum, pySum_num batch hnum]
      simp [hl, he2]

/-- Witness for C1: the amended claim instantiated on the numeric batch
[1, 2] and a sensor stream. -/
theorem claim_C1_witness :
    SensorStream.process_batch (SensorStream.init "S") [PyVal.int 1, PyVal.int 2] =
      (if ([PyVal.int 1, PyVal.int 2] : List PyVal).isEmpty = true then
        (sensorInvalid (SensorStream.init "S").stream_id, SensorStream.init "S")
       else
         (sensorMsg (SensorStream.init "S").stream_id
            ([PyVal.int 1, PyVal.int 2] : List PyVal).length
            (ratSum [PyVal.int 1, PyVal.int 2] /
              ((([PyVal.int 1, PyVal.int 2] : List PyVal).length : Nat) : Rat)),
          { SensorStream.init "S" with
              processed_count :=
                (SensorStream.init "S").processed_count +
                  ([PyVal.int 1, PyVal.int 2] : List PyVal).length })) ∧
    NumericProcessor.process (PyData.list [PyVal.int 1, PyVal.int 2]) =
      (if ([PyVal.int 1, PyVal.int 2] : List PyVal).isEmpty = true then
        .error .zeroDivisionError
       else
        .ok (numericMsg ([PyVal.int 1, PyVal.int 2] : List PyVal).length
          (ratSum [PyVal.int 1, PyVal.int 2])
          (ratSum [PyVal.int 1, PyVal.int 2] /
            ((([PyVal.int 1, PyVal.int 2] : List PyVal).length : Nat) : Rat)))) :=
  claim_C1 (SensorStream.init "S") [PyVal.int 1, PyVal.int 2] (by decide)

/-- Counterexample to claim C2 as stated: a type-mismatched event batch
(a bare integer item) is not a failure for `EventStream.process_batch`;
the call increments `processed_count`.  And the empty batch is not a
failure for `TransactionStream.process_batch`: its result is the success
string, not the failure string. -/
theorem claim_C2_counterexample :
    (EventStream.process_batch (EventStream.init "E") [PyVal.int 7]).2.processed_count ≠
      (EventStream.init "E").processed_count ∧
    (TransactionStream.process_batch (TransactionStream.init "T") []).1 ≠
      transactionInvalid "T" := by
  refine ⟨by decide, by decide⟩

/-- Claim C2 (amended): `process_batch` never raises for any variant.
`SensorStream` fails (failure string, count unchanged) exactly on a type
mismatch or an empty batch; `TransactionStream` fails exactly on a type
mismatch and treats the empty batch as a success with net flow 0;
`EventStream` succeeds on every batch; each success increments
`processed_count` by exactly the batch size. -/
theorem claim_C2 (st : DataStream) (batch : List PyVal) :
    SensorStream.process_batch st batch =
      (if (batch.all PyVal.isNum && !batch.isEmpty) = true then
        (sensorMsg st.stream_id batch.length (ratSum batch / (batch.length : Rat)),
         { st with processed_count := st.processed_count + batch.length })
       else (sensorInvalid st.stream_id, st)) ∧
    TransactionStream.process_batch st batch =
      (if batch.all PyVal.isNum = true then
        (transactionMsg st.stream_id batch.length (ratSum batch),
         { st with processed_count := st.processed_count + batch.length })
       else (transactionInvalid st.stream_id, st)) ∧
    EventStream.process_batch st batch =
      (eventMsg st.stream_id batch.length (eventErrorCount batch),
       { st with processed_count := st.processed_count + batch.length }) := by
  refine ⟨?_, ?_, rfl⟩
  · by_cases hnum : batch.all PyVal.isNum = true
    · by_cases he : batch.isEmpty = true
      · have hb : batch = [] := by simpa [List.isEmpty_iff] using he
        subst hb
        simp [sensor_process_batch_fail st [] (Or.inl rfl)]
      · have hb : batch ≠ [] := by simpa [List.isEmpty_iff] using he
        have he2 : batch.isEmpty = false := by simpa using he
        rw [sensor_process_batch_ok st batch hnum hb]
        simp [hnum, he2]
    · have hf : batch.all PyVal.isNum = false := by simpa using hnum
      rw [sensor_process_batch_fail st batch (Or.inr hf)]
      simp [hf]
  · by_cases hnum : batch.all PyVal.isNum = true
    · rw [transaction_process_batch_ok st batch hnum]
      simp [hnum]
    · have hf : batch.all PyVal.isNum = false := by simpa using hnum
      rw [transaction_process_batch_fail st batch hf]
      simp [hf]

/-- Counterexample to claim C4 as stated: the string "hello" is of the
wrong shape for LogProcessor (no ERROR/INFO marker), and `validate`
returns False on it without printing any diagnostic. -/
theorem claim_C4_counterexample :
    logShape (PyData.val (.str "hello")) = false ∧
    LogProcessor.validate (PyData.val (.str "hello")) = (false, []) := by
  refine ⟨by decide, by decide⟩

/-- Claim C4 (amended): on every wrong-shape input, `validate` of each
concrete processor returns False and never raises (the embedded functions
are total); NumericProcessor and TextProcessor always print a diagnostic,
while LogProcessor prints one exactly when the input is not a string — a
marker-less string is rejected silently. -/
theorem claim_C4 (d : PyData) :
    (numericShape d = false →
      NumericProcessor.validate d = (false, ["Not list of numbers"])) ∧
    (textShape d = false → TextProcessor.validate d = (false, ["Not a string"])) ∧
    (logShape d = false →
      (LogProcessor.validate d).1 = false ∧
      ((LogProcessor.validate d).2 = [] ↔ textShape d = true)) := by
  refine ⟨?_, ?_, ?_⟩
  · intro h
    rw [numeric_validate_eq d, h]
    simp
  · intro h
    cases d with
    | val v =>
      cases v with
      | str s => simp [textShape] at h
      | int n => rfl
      | float q => rfl
    | list l => rfl
  · intro h
    cases d with
    | val v =>
      cases v with
      | str s =>
        have hs : (strContains "ERROR" s || strContains "INFO" s) = false := by
          simpa [logShape] using h
        simp [LogProcessor.validate, hs, textShape]
      | int n => simp [LogProcessor.validate, textShape]
      | float q => simp [LogProcessor.validate, textShape]
    | list l => simp [LogProcessor.validate, textShape]

/-- Witness for C4: the amended claim instantiated on the bare integer 45,
the error-check input of the program's own driver. -/
theorem claim_C4_witness :
    NumericProcessor.validate (PyData.val (.int 45)) =
      (false, ["Not list of numbers"]) ∧
    TextProcessor.validate (PyData.val (.int 45)) = (false, ["Not a string"]) ∧
    (LogProcessor.validate (PyData.val (.int 45))).1 = false ∧
    ((LogProcessor.validate (PyData.val (.int 45))).2 = [] ↔
      textShape (PyData.val (.int 45)) = true) := by
  have h := claim_C4 (PyData.val (.int 45))
  exact ⟨h.1 (by decide), h.2.1 (by decide), (h.2.2 (by decide)).1, (h.2.2 (by decide)).2⟩
